import Mathlib

/-!
# Verification of the PersonaPlex RunPod serverless supervisor

Shallow embedding of `src/rp_handler.py`: the readiness prober
`wait_for_server`, and the `handler` lifecycle (launch, readiness wait,
monitoring loop with health-check-triggered restarts, and the guaranteed
`finally` cleanup).  External effects (TCP connect attempts, process
polling, exceptions raised by OS calls) are supplied by oracle
environments; the embedding records the sequence of observable effects as
an event trace.
-/

namespace PersonaPlex

/-- Outcome of one TCP connect attempt inside `wait_for_server`:
`success` models `sock.connect_ex` returning 0, `refused` models a nonzero
return value, and `error` models a `socket.error` being raised (swallowed
by the `except socket.error: pass` clause). -/
inductive ProbeOutcome where
  | success
  | refused
  | error
deriving DecidableEq, Repr

/-- Start time (in whole seconds since the loop began) of attempt `j`
counting from attempt index `k` begun at elapsed time `elapsed`.  Each
attempt `i` consumes `dur i` seconds for the connect attempt itself
(the per-attempt socket timeout bounds it) plus the fixed
`time.sleep(1)` second. -/
def startFrom (dur : Nat → Nat) (k elapsed : Nat) : Nat → Nat
  | 0 => elapsed
  | j + 1 => startFrom dur k elapsed j + dur (k + j) + 1

/-- Start time of attempt `k` when the loop begins at time 0. -/
def attemptStart (dur : Nat → Nat) (k : Nat) : Nat :=
  startFrom dur 0 0 k

/-- The `while time.time() - start_time < timeout` loop of
`wait_for_server`, with explicit fuel.  At each iteration: if the elapsed
time has reached `timeout`, return `False`; otherwise make connect attempt
`k`; on `success` return `True` immediately; on `refused` or `error`
continue after consuming `dur k + 1` seconds (attempt duration plus the
1-second sleep). -/
def wfsGo (attempt : Nat → ProbeOutcome) (dur : Nat → Nat) (timeout : Nat) :
    Nat → Nat → Nat → Bool
  | 0, _, _ => false
  | fuel + 1, k, elapsed =>
    if elapsed < timeout then
      match attempt k with
      | .success => true
      | .refused => wfsGo attempt dur timeout fuel (k + 1) (elapsed + (dur k + 1))
      | .error => wfsGo attempt dur timeout fuel (k + 1) (elapsed + (dur k + 1))
    else false

/-- `wait_for_server(host, port, timeout)` from `src/rp_handler.py`,
abstracted over the oracle `attempt` giving the outcome of each connect
attempt and `dur` giving each attempt's duration in whole seconds.
Because every iteration consumes at least one second (the sleep),
`timeout + 1` fuel is enough for the loop to reach its exit condition. -/
def wait_for_server (attempt : Nat → ProbeOutcome) (dur : Nat → Nat)
    (timeout : Nat) : Bool :=
  wfsGo attempt dur timeout (timeout + 1) 0 0

/-- Observable effects of one `handler` invocation, in program order.
Process handles `h` are numbered by spawn order: the initial launch is
handle 0, the replacement spawned by the `n`-th restart is handle `n`. -/
inductive Event where
  | spawn (h : Nat)
  | waitReadyInit (timeout : Nat) (ok : Bool)
  | waitReadyHealth (timeout : Nat) (ok : Bool)
  | waitReadyRestart (timeout : Nat) (ok : Bool)
  | pollCheck (h : Nat) (r : Option Int)
  | sleepTick
  | terminateSig (h : Nat)
  | killSig (h : Nat)
  | progressSent
deriving DecidableEq, Repr

/-- Oracle environment for one `handler` invocation.  Each field resolves
one class of external nondeterminism:
`launchExn k`: does the `k`-th `start_personaplex_server` call raise;
`initReady`: result of the initial `wait_for_server(timeout=120)`;
`pollAt n`: result of `server_process.poll()` at the `n`-th monitoring
iteration (`none` = still running, `some c` = exited with code `c`);
`probeOk n`: result of the health check `wait_for_server(timeout=5)` at
iteration `n`; `restartReady n`: result of the post-restart
`wait_for_server(timeout=60)` begun at iteration `n` (its value is
discarded by the code); `termExn k`: does the `k`-th
`server_process.terminate()` call raise; `finalPoll`: result of the
`poll()` in the `finally` block; `waitExited`: whether
`server_process.wait(timeout=10)` returns (vs raising `TimeoutExpired`);
`killExn`: does `server_process.kill()` raise; `progressExn`: does
`runpod.serverless.progress_update` raise. -/
structure Env where
  sessionId : String
  launchExn : Nat → Option String
  initReady : Bool
  pollAt : Nat → Option Int
  probeOk : Nat → Bool
  restartReady : Nat → Bool
  termExn : Nat → Option String
  finalPoll : Option Int
  waitExited : Bool
  killExn : Option String
  progressExn : Option String

/-- Mutable state threaded through the monitoring loop: the current
process handle (`server_process`), the index of the next launch call, the
index of the next terminate call, and the monitoring-iteration index. -/
structure LoopState where
  cur : Nat
  launches : Nat
  termCount : Nat
  step : Nat
deriving DecidableEq, Repr

/-- How the `while` loop of `handler` ended: the condition's `poll()`
observed an exit code, an exception was raised inside the `try` body (to
be caught by the `except` clause), or the fuel ran out with the loop
still iterating. -/
inductive LoopExit where
  | exited (code : Int)
  | caught (msg : String)
  | fuelOut
deriving DecidableEq, Repr

/-- Result of running the monitoring loop: exit kind, final loop state,
and the events it emitted. -/
structure LoopOut where
  exit : LoopExit
  final : LoopState
  events : List Event
deriving DecidableEq, Repr

/-- The monitoring loop of `handler` (`while server_process and
server_process.poll() is None:`), with explicit fuel bounding the number
of iterations we observe.  One iteration: poll the current process (loop
condition); if still running, sleep 5, run the 5-second health probe; on
probe failure terminate the current process, launch a replacement, and
wait for it with `wait_for_server(timeout=60)` whose result is ignored.
`terminate()` and `start_personaplex_server()` may raise; such an
exception exits the loop as `.caught` (handled by the `except` clause).
When the replacement launch raises, `server_process` keeps the old
(already-terminated) handle, so `final.cur` is unchanged on that path. -/
def monitorLoop (env : Env) : Nat → LoopState → LoopOut
  | 0, s => ⟨.fuelOut, s, []⟩
  | fuel + 1, s =>
    match env.pollAt s.step with
    | some code => ⟨.exited code, s, [.pollCheck s.cur (some code)]⟩
    | none =>
      let ev1 : List Event :=
        [.pollCheck s.cur none, .sleepTick, .waitReadyHealth 5 (env.probeOk s.step)]
      match env.probeOk s.step with
      | true =>
        let o := monitorLoop env fuel ⟨s.cur, s.launches, s.termCount, s.step + 1⟩
        ⟨o.exit, o.final, ev1 ++ o.events⟩
      | false =>
        match env.termExn s.termCount with
        | some m => ⟨.caught m, ⟨s.cur, s.launches, s.termCount + 1, s.step⟩, ev1⟩
        | none =>
          match env.launchExn s.launches with
          | some m =>
            ⟨.caught m, ⟨s.cur, s.launches + 1, s.termCount + 1, s.step⟩,
              ev1 ++ [.terminateSig s.cur]⟩
          | none =>
            let o := monitorLoop env fuel
              ⟨s.launches, s.launches + 1, s.termCount + 1, s.step + 1⟩
            ⟨o.exit, o.final,
              ev1 ++ [.terminateSig s.cur, .spawn s.launches,
                .waitReadyRestart 60 (env.restartReady s.step)] ++ o.events⟩

/-- The `finally` block of `handler` (lines 181-189 of the source):
poll the current process; if it has already exited do nothing; otherwise
call `terminate()` (which may raise — only `subprocess.TimeoutExpired`
from `wait` is caught by the block), wait up to 10 seconds, and on wait
timeout call `kill()` (which may also raise).  Returns the escaping
exception, if any, together with the emitted events. -/
def finallyRun (env : Env) (s : LoopState) : Option String × List Event :=
  match env.finalPoll with
  | some code => (none, [.pollCheck s.cur (some code)])
  | none =>
    match env.termExn s.termCount with
    | some m => (some m, [.pollCheck s.cur none])
    | none =>
      match env.waitExited with
      | true =>
        (none, [.pollCheck s.cur none, .terminateSig s.cur])
      | false =>
        match env.killExn with
        | some m => (some m, [.pollCheck s.cur none, .terminateSig s.cur])
        | none =>
          (none, [.pollCheck s.cur none, .terminateSig s.cur, .killSig s.cur])

/-- The structured objects `handler` can return: the `{error: ...}`
object of a failed initial launch (line 117), the `{error: ...}` object
of an initial readiness timeout (line 124), the
`{status:"stopped", reason:"server_exited", return_code, session_id}`
object (lines 168-173), and the `{status:"error", error, session_id}`
object of the `except` clause (lines 176-180). -/
inductive HResult where
  | initLaunchFailure (msg : String)
  | initTimeoutFailure (msg : String)
  | stopped (returnCode : Int) (sessionId : String)
  | monitorError (msg : String) (sessionId : String)
deriving DecidableEq, Repr

/-- Outcome of one `handler` invocation: a structured result was
returned, an exception escaped `handler` uncaught, or the fuel ran out
with the monitoring loop still iterating (session still alive). -/
inductive HStatus where
  | ok (r : HResult)
  | uncaught (msg : String)
  | outOfFuel
deriving DecidableEq, Repr

/-- Outcome plus event trace of one `handler` invocation. -/
structure HandlerOut where
  status : HStatus
  trace : List Event
deriving DecidableEq, Repr

/-- The events `handler` emits before entering the monitoring loop on
the successful-startup path: initial spawn, successful 120-second
readiness wait, and the `progress_update` reporting connection info. -/
def preludeTrace : List Event :=
  [.spawn 0, .waitReadyInit 120 true, .progressSent]

/-- Assembly of `handler`'s `try/except/finally` outcome from the
monitoring loop's outcome `o`: on loop-condition exit return the
`stopped` result, on a caught exception return the `monitorError`
result; in both cases the `finally` block runs afterwards, and if it
raises, its exception replaces the primary result and escapes.  When the
fuel ran out the loop is still iterating, so the `finally` block has not
run yet. -/
def handlerMonitor (env : Env) (o : LoopOut) : HandlerOut :=
  match o.exit with
  | .fuelOut => ⟨.outOfFuel, preludeTrace ++ o.events⟩
  | .exited code =>
    match (finallyRun env o.final).1 with
    | some m =>
      ⟨.uncaught m, preludeTrace ++ o.events ++ (finallyRun env o.final).2⟩
    | none =>
      ⟨.ok (.stopped code env.sessionId),
        preludeTrace ++ o.events ++ (finallyRun env o.final).2⟩
  | .caught m =>
    match (finallyRun env o.final).1 with
    | some m2 =>
      ⟨.uncaught m2, preludeTrace ++ o.events ++ (finallyRun env o.final).2⟩
    | none =>
      ⟨.ok (.monitorError m env.sessionId),
        preludeTrace ++ o.events ++ (finallyRun env o.final).2⟩

/-- The `handler(job)` function of `src/rp_handler.py`: launch (its
exception caught and returned as `initLaunchFailure`), initial
`wait_for_server(timeout=120)` (on failure: terminate — outside any
`try`, so a raising terminate escapes — and return `initTimeoutFailure`),
`progress_update` (outside any `try`: a raise escapes), then the
monitoring loop inside `try/except/finally`. -/
def handler (env : Env) (fuel : Nat) : HandlerOut :=
  match env.launchExn 0 with
  | some m =>
    ⟨.ok (.initLaunchFailure ("Failed to start PersonaPlex server: " ++ m)), []⟩
  | none =>
    match env.initReady with
    | true =>
      match env.progressExn with
      | some m => ⟨.uncaught m, [.spawn 0, .waitReadyInit 120 true]⟩
      | none => handlerMonitor env (monitorLoop env fuel ⟨0, 1, 0, 0⟩)
    | false =>
      match env.termExn 0 with
      | some m => ⟨.uncaught m, [.spawn 0, .waitReadyInit 120 false]⟩
      | none =>
        ⟨.ok (.initTimeoutFailure "PersonaPlex server failed to start within timeout"),
          [.spawn 0, .waitReadyInit 120 false, .terminateSig 0]⟩

/-- Timeout arguments of the post-restart readiness waits in a trace. -/
def restartTimeoutsOf (tr : List Event) : List Nat :=
  tr.filterMap fun e =>
    match e with
    | .waitReadyRestart t _ => some t
    | _ => none

/-- Timeout arguments of the initial readiness waits in a trace. -/
def initTimeoutsOf (tr : List Event) : List Nat :=
  tr.filterMap fun e =>
    match e with
    | .waitReadyInit t _ => some t
    | _ => none

/-- Number of restart sequences (terminate old, launch new, wait-ready)
completed in a trace, counted by their trailing readiness wait. -/
def countRestarts (tr : List Event) : Nat :=
  (restartTimeoutsOf tr).length

/-- The termination/kill signals contained in a trace. -/
def cleanupSignals (tr : List Event) : List Event :=
  tr.filter fun e =>
    match e with
    | .terminateSig _ => true
    | .killSig _ => true
    | _ => false

/-- Audit automaton state for the process-handle invariants:
`lastSpawn` is the most recently spawned handle, `live` is the handle
that has been spawned and not yet sent a termination signal (at most one
may exist). -/
structure AuditState where
  lastSpawn : Option Nat
  live : Option Nat
deriving DecidableEq, Repr

/-- One audit transition.  It rejects (returns `none`) when a spawn
occurs while a spawned-and-unterminated handle exists (two live
handles), when a poll or kill targets a handle other than the most
recently spawned one, or when a termination signal targets a handle that
is neither the most recently spawned one nor matches the live one. -/
def auditStep (st : AuditState) : Event → Option AuditState
  | .spawn h =>
    match st.live with
    | some _ => none
    | none => some ⟨some h, some h⟩
  | .terminateSig h =>
    if st.lastSpawn = some h then
      match st.live with
      | some h2 => if h2 = h then some ⟨st.lastSpawn, none⟩ else none
      | none => some st
    else none
  | .pollCheck h _ => if st.lastSpawn = some h then some st else none
  | .killSig h => if st.lastSpawn = some h then some st else none
  | _ => some st

/-- Run the audit automaton over a trace; `none` means some prefix
violated the handle invariants. -/
def auditTrace : AuditState → List Event → Option AuditState
  | st, [] => some st
  | st, e :: es =>
    match auditStep st e with
    | none => none
    | some st2 => auditTrace st2 es

/-- Benign oracle defaults: session "sess", no call ever raises, the
process stays alive and healthy, the initial readiness wait succeeds. -/
def envBase : Env where
  sessionId := "sess"
  launchExn := fun _ => none
  initReady := true
  pollAt := fun _ => none
  probeOk := fun _ => true
  restartReady := fun _ => true
  termExn := fun _ => none
  finalPoll := none
  waitExited := true
  killExn := none
  progressExn := none

/-- A session whose child stays alive but whose liveness probe fails at
every monitoring iteration (a hung server): every iteration triggers a
restart sequence. -/
def envLoop : Env :=
  { envBase with probeOk := fun _ => false }

/-- A session whose child exits on its own (with code 1) during the
first 5-second sleep of the monitoring loop: the loop-condition poll at
iteration 0 still saw it running, but the health probe at iteration 0
fails because the process is gone; every later probe of the replacement
succeeds. -/
def envSleepExit : Env :=
  { envBase with probeOk := fun n => decide (0 < n) }

/-- A session whose child exits on its own with code 1 before the first
loop-condition poll: the poll observes the exit, and the `finally`
poll observes it again. -/
def envPollExit : Env :=
  { envBase with pollAt := fun _ => some 1, finalPoll := some 1 }

/-- A session where the child hangs (health probe fails), the restart's
replacement launch raises, and in the `finally` block the old terminated
process has not yet exited, ignores the second termination signal, and
the forced `kill()` call itself raises. -/
def envKillRaise : Env :=
  { envBase with
    launchExn := fun k => match k with | 0 => none | _ => some "spawn failed"
    probeOk := fun _ => false
    waitExited := false
    killExn := some "kill failed" }

/-- A session where the child hangs and every `terminate()` call raises:
the restart's terminate raises (caught by the `except` clause), then the
`finally` block's terminate raises again. -/
def envTermRaise : Env :=
  { envBase with
    probeOk := fun _ => false
    termExn := fun _ => some "terminate failed" }

/-- A session whose initial readiness wait times out. -/
def envNoReady : Env :=
  { envBase with initReady := false }

/-- A session where the child hangs at iteration 0 and the restart's
replacement launch raises "boom"; the old process, having received the
termination signal, is observed exited (code -15) by the `finally`
poll. -/
def envRestartBoom : Env :=
  { envBase with
    launchExn := fun k => match k with | 0 => none | _ => some "boom"
    probeOk := fun _ => false
    finalPoll := some (-15) }

/-- Connect attempts that succeed exactly at attempt 2, each earlier
attempt failing with a refused connection (`connect_ex` nonzero). -/
def attemptsRefused : Nat → ProbeOutcome :=
  fun k => if k = 2 then .success else .refused

/-- Connect attempts that succeed exactly at attempt 2, each earlier
attempt failing with a raised `socket.error`. -/
def attemptsErrored : Nat → ProbeOutcome :=
  fun k => if k = 2 then .success else .error

/-- Instantaneous connect attempts: each loop iteration costs exactly
the fixed 1-second sleep. -/
def durZero : Nat → Nat := fun _ => 0

theorem startFrom_le (dur : Nat → Nat) (k elapsed : Nat) :
    ∀ j, elapsed ≤ startFrom dur k elapsed j := by
  intro j
  induction j with
  | zero => exact Nat.le_refl _
  | succ j ih =>
    calc elapsed ≤ startFrom dur k elapsed j := ih
      _ ≤ startFrom dur k elapsed j + dur (k + j) + 1 := by omega
      _ = startFrom dur k elapsed (j + 1) := rfl

theorem startFrom_shift (dur : Nat → Nat) (k elapsed : Nat) :
    ∀ j, startFrom dur (k + 1) (elapsed + (dur k + 1)) j =
      startFrom dur k elapsed (j + 1) := by
  intro j
  induction j with
  | zero =>
    show elapsed + (dur k + 1) = startFrom dur k elapsed 0 + dur (k + 0) + 1
    simp [startFrom]
    omega
  | succ j ih =>
    show startFrom dur (k + 1) (elapsed + (dur k + 1)) j + dur (k + 1 + j) + 1
        = startFrom dur k elapsed (j + 1) + dur (k + (j + 1)) + 1
    rw [ih]
    have : k + 1 + j = k + (j + 1) := by omega
    rw [this]

theorem wfsGo_true_iff (attempt : Nat → ProbeOutcome) (dur : Nat → Nat)
    (timeout : Nat) :
    ∀ fuel k elapsed, timeout ≤ elapsed + fuel →
      (wfsGo attempt dur timeout fuel k elapsed = true ↔
        ∃ j, startFrom dur k elapsed j < timeout ∧
          attempt (k + j) = ProbeOutcome.success) := by
  intro fuel
  induction fuel with
  | zero =>
    intro k elapsed hle
    simp only [wfsGo]
    constructor
    · intro h
      exact absurd h (by simp)
    · rintro ⟨j, hj, _⟩
      have := startFrom_le dur k elapsed j
      omega
  | succ fuel ih =>
    intro k elapsed hle
    by_cases hel : elapsed < timeout
    · cases hatt : attempt k with
      | success =>
        simp only [wfsGo, if_pos hel, hatt]
        constructor
        · intro _
          exact ⟨0, by simpa [startFrom] using hel, by simpa using hatt⟩
        · intro _
          trivial
      | refused =>
        simp only [wfsGo, if_pos hel, hatt]
        rw [ih (k + 1) (elapsed + (dur k + 1)) (by omega)]
        constructor
        · rintro ⟨j, hj, hs⟩
          refine ⟨j + 1, ?_, ?_⟩
          · rwa [startFrom_shift] at hj
          · have : k + 1 + j = k + (j + 1) := by omega
            rwa [this] at hs
        · rintro ⟨j, hj, hs⟩
          cases j with
          | zero =>
            rw [show k + 0 = k from rfl] at hs
            rw [hatt] at hs
            exact absurd hs (by simp)
          | succ j =>
            refine ⟨j, ?_, ?_⟩
            · rwa [startFrom_shift]
            · have : k + 1 + j = k + (j + 1) := by omega
              rwa [this]
      | error =>
        simp only [wfsGo, if_pos hel, hatt]
        rw [ih (k + 1) (elapsed + (dur k + 1)) (by omega)]
        constructor
        · rintro ⟨j, hj, hs⟩
          refine ⟨j + 1, ?_, ?_⟩
          · rwa [startFrom_shift] at hj
          · have : k + 1 + j = k + (j + 1) := by omega
            rwa [this] at hs
        · rintro ⟨j, hj, hs⟩
          cases j with
          | zero =>
            rw [show k + 0 = k from rfl] at hs
            rw [hatt] at hs
            exact absurd hs (by simp)
          | succ j =>
            refine ⟨j, ?_, ?_⟩
            · rwa [startFrom_shift]
            · have : k + 1 + j = k + (j + 1) := by omega
              rwa [this]
    · simp only [wfsGo, if_neg hel]
      constructor
      · intro h
        exact absurd h (by simp)
      · rintro ⟨j, hj, _⟩
        have := startFrom_le dur k elapsed j
        omega

theorem wait_for_server_true_iff (attempt : Nat → ProbeOutcome)
    (dur : Nat → Nat) (timeout : Nat) :
    wait_for_server attempt dur timeout = true ↔
      ∃ k, attemptStart dur k < timeout ∧
        attempt k = ProbeOutcome.success := by
  unfold wait_for_server attemptStart
  rw [wfsGo_true_iff attempt dur timeout (timeout + 1) 0 0 (by omega)]
  constructor
  · rintro ⟨j, hj, hs⟩
    exact ⟨j, hj, by simpa using hs⟩
  · rintro ⟨k, hk, hs⟩
    exact ⟨k, hk, by simpa using hs⟩

theorem auditTrace_append (a b : List Event) : ∀ st,
    auditTrace st (a ++ b) =
      match auditTrace st a with
      | none => none
      | some st2 => auditTrace st2 b := by
  induction a with
  | nil => intro st; rfl
  | cons e es ih =>
    intro st
    simp only [List.cons_append, auditTrace]
    cases auditStep st e with
    | none => rfl
    | some st2 => exact ih st2

theorem countRestarts_append (a b : List Event) :
    countRestarts (a ++ b) = countRestarts a + countRestarts b := by
  simp [countRestarts, restartTimeoutsOf, List.filterMap_append]

theorem restartTimeoutsOf_append (a b : List Event) :
    restartTimeoutsOf (a ++ b) = restartTimeoutsOf a ++ restartTimeoutsOf b := by
  simp [restartTimeoutsOf, List.filterMap_append]

theorem initTimeoutsOf_append (a b : List Event) :
    initTimeoutsOf (a ++ b) = initTimeoutsOf a ++ initTimeoutsOf b := by
  simp [initTimeoutsOf, List.filterMap_append]

theorem restartTimeoutsOf_finallyRun (env : Env) (s : LoopState) :
    restartTimeoutsOf (finallyRun env s).2 = [] := by
  unfold finallyRun
  cases env.finalPoll with
  | some c => simp [restartTimeoutsOf]
  | none =>
    cases env.termExn s.termCount with
    | some m => simp [restartTimeoutsOf]
    | none =>
      cases env.waitExited with
      | true => simp [restartTimeoutsOf]
      | false =>
        cases env.killExn with
        | some m => simp [restartTimeoutsOf]
        | none => simp [restartTimeoutsOf]

theorem initTimeoutsOf_finallyRun (env : Env) (s : LoopState) :
    initTimeoutsOf (finallyRun env s).2 = [] := by
  unfold finallyRun
  cases env.finalPoll with
  | some c => simp [initTimeoutsOf]
  | none =>
    cases env.termExn s.termCount with
    | some m => simp [initTimeoutsOf]
    | none =>
      cases env.waitExited with
      | true => simp [initTimeoutsOf]
      | false =>
        cases env.killExn with
        | some m => simp [initTimeoutsOf]
        | none => simp [initTimeoutsOf]

theorem finallyRun_no_raise (env : Env) (s : LoopState)
    (ht : env.termExn s.termCount = none) (hk : env.killExn = none) :
    (finallyRun env s).1 = none := by
  unfold finallyRun
  cases env.finalPoll with
  | some c => rfl
  | none =>
    rw [ht, hk]
    cases env.waitExited with
    | true => rfl
    | false => rfl

theorem monitorLoop_restart_timeouts (env : Env) : ∀ fuel s,
    (restartTimeoutsOf (monitorLoop env fuel s).events).all (fun t => t == 60)
      = true ∧
    initTimeoutsOf (monitorLoop env fuel s).events = [] := by
  intro fuel
  induction fuel with
  | zero => intro s; simp [monitorLoop, restartTimeoutsOf, initTimeoutsOf]
  | succ fuel ih =>
    intro s
    cases hpoll : env.pollAt s.step with
    | some code =>
      simp [monitorLoop, hpoll, restartTimeoutsOf, initTimeoutsOf]
    | none =>
      cases hprobe : env.probeOk s.step with
      | true =>
        have hrec := ih ⟨s.cur, s.launches, s.termCount, s.step + 1⟩
        simp only [monitorLoop, hpoll, hprobe]
        rw [restartTimeoutsOf_append, initTimeoutsOf_append]
        rw [show restartTimeoutsOf [Event.pollCheck s.cur none, Event.sleepTick,
          Event.waitReadyHealth 5 true] = [] from rfl]
        rw [show initTimeoutsOf [Event.pollCheck s.cur none, Event.sleepTick,
          Event.waitReadyHealth 5 true] = [] from rfl]
        simpa using hrec
      | false =>
        cases hterm : env.termExn s.termCount with
        | some m =>
          simp [monitorLoop, hpoll, hprobe, hterm, restartTimeoutsOf,
            initTimeoutsOf]
        | none =>
          cases hlaunch : env.launchExn s.launches with
          | some m =>
            simp [monitorLoop, hpoll, hprobe, hterm, hlaunch,
              restartTimeoutsOf, initTimeoutsOf]
          | none =>
            have hrec := ih ⟨s.launches, s.launches + 1, s.termCount + 1,
              s.step + 1⟩
            simp only [monitorLoop, hpoll, hprobe, hterm, hlaunch]
            rw [restartTimeoutsOf_append, initTimeoutsOf_append,
              restartTimeoutsOf_append, initTimeoutsOf_append]
            rw [show restartTimeoutsOf [Event.pollCheck s.cur none,
              Event.sleepTick, Event.waitReadyHealth 5 false] = [] from rfl]
            rw [show initTimeoutsOf [Event.pollCheck s.cur none,
              Event.sleepTick, Event.waitReadyHealth 5 false] = [] from rfl]
            rw [show restartTimeoutsOf [Event.terminateSig s.cur,
              Event.spawn s.launches,
              Event.waitReadyRestart 60 (env.restartReady s.step)] = [60]
              from rfl]
            rw [show initTimeoutsOf [Event.terminateSig s.cur,
              Event.spawn s.launches,
              Event.waitReadyRestart 60 (env.restartReady s.step)] = []
              from rfl]
            simpa using hrec

theorem monitorLoop_envLoop (fuel : Nat) : ∀ s,
    (monitorLoop envLoop fuel s).exit = LoopExit.fuelOut ∧
    countRestarts (monitorLoop envLoop fuel s).events = fuel := by
  induction fuel with
  | zero => intro s; exact ⟨rfl, rfl⟩
  | succ fuel ih =>
    intro s
    have hrec := ih ⟨s.launches, s.launches + 1, s.termCount + 1, s.step + 1⟩
    refine ⟨hrec.1, ?_⟩
    show countRestarts
      ([Event.pollCheck s.cur none, Event.sleepTick,
        Event.waitReadyHealth 5 false] ++
        [Event.terminateSig s.cur, Event.spawn s.launches,
          Event.waitReadyRestart 60 true] ++
        (monitorLoop envLoop fuel
          ⟨s.launches, s.launches + 1, s.termCount + 1, s.step + 1⟩).events)
      = fuel + 1
    rw [countRestarts_append, countRestarts_append, hrec.2]
    rw [show countRestarts [Event.pollCheck s.cur none, Event.sleepTick,
      Event.waitReadyHealth 5 false] = 0 from rfl]
    rw [show countRestarts [Event.terminateSig s.cur, Event.spawn s.launches,
      Event.waitReadyRestart 60 true] = 1 from rfl]
    omega

theorem monitorLoop_audit (env : Env) : ∀ fuel s,
    auditTrace ⟨some s.cur, some s.cur⟩ (monitorLoop env fuel s).events =
      some ⟨some (monitorLoop env fuel s).final.cur,
        some (monitorLoop env fuel s).final.cur⟩ ∨
    auditTrace ⟨some s.cur, some s.cur⟩ (monitorLoop env fuel s).events =
      some ⟨some (monitorLoop env fuel s).final.cur, none⟩ := by
  intro fuel
  induction fuel with
  | zero => intro s; left; rfl
  | succ fuel ih =>
    intro s
    cases hpoll : env.pollAt s.step with
    | some code =>
      left
      simp [monitorLoop, hpoll, auditTrace, auditStep]
    | none =>
      cases hprobe : env.probeOk s.step with
      | true =>
        have hrec := ih ⟨s.cur, s.launches, s.termCount, s.step + 1⟩
        simp only [monitorLoop, hpoll, hprobe]
        rw [auditTrace_append]
        have h1 : auditTrace ⟨some s.cur, some s.cur⟩
            [Event.pollCheck s.cur none, Event.sleepTick,
              Event.waitReadyHealth 5 true] = some ⟨some s.cur, some s.cur⟩ := by
          simp [auditTrace, auditStep]
        rw [h1]
        exact hrec
      | false =>
        cases hterm : env.termExn s.termCount with
        | some m =>
          left
          simp [monitorLoop, hpoll, hprobe, hterm, auditTrace, auditStep]
        | none =>
          cases hlaunch : env.launchExn s.launches with
          | some m =>
            right
            simp [monitorLoop, hpoll, hprobe, hterm, hlaunch, auditTrace,
              auditStep]
          | none =>
            have hrec := ih ⟨s.launches, s.launches + 1, s.termCount + 1,
              s.step + 1⟩
            simp only [monitorLoop, hpoll, hprobe, hterm, hlaunch]
            rw [auditTrace_append]
            have h1 : auditTrace ⟨some s.cur, some s.cur⟩
                ([Event.pollCheck s.cur none, Event.sleepTick,
                  Event.waitReadyHealth 5 false] ++
                  [Event.terminateSig s.cur, Event.spawn s.launches,
                    Event.waitReadyRestart 60 (env.restartReady s.step)]) =
                some ⟨some s.launches, some s.launches⟩ := by
              simp [auditTrace, auditStep]
            rw [h1]
            exact hrec

theorem finallyRun_audit (env : Env) (s : LoopState) :
    (auditTrace ⟨some s.cur, some s.cur⟩ (finallyRun env s).2).isSome = true ∧
    (auditTrace ⟨some s.cur, none⟩ (finallyRun env s).2).isSome = true := by
  unfold finallyRun
  cases env.finalPoll with
  | some c => constructor <;> simp [auditTrace, auditStep]
  | none =>
    cases env.termExn s.termCount with
    | some m => constructor <;> simp [auditTrace, auditStep]
    | none =>
      cases env.waitExited with
      | true => constructor <;> simp [auditTrace, auditStep]
      | false =>
        cases env.killExn with
        | some m => constructor <;> simp [auditTrace, auditStep]
        | none => constructor <;> simp [auditTrace, auditStep]

theorem handlerMonitor_audit (env : Env) (o : LoopOut)
    (h : auditTrace ⟨some 0, some 0⟩ o.events =
        some ⟨some o.final.cur, some o.final.cur⟩ ∨
      auditTrace ⟨some 0, some 0⟩ o.events = some ⟨some o.final.cur, none⟩) :
    (auditTrace ⟨none, none⟩ (handlerMonitor env o).trace).isSome = true := by
  have hpre : auditTrace ⟨none, none⟩ preludeTrace = some ⟨some 0, some 0⟩ := by
    simp [preludeTrace, auditTrace, auditStep]
  have hfin := finallyRun_audit env o.final
  unfold handlerMonitor
  cases hx : o.exit with
  | fuelOut =>
    show (auditTrace ⟨none, none⟩ (preludeTrace ++ o.events)).isSome = true
    rw [auditTrace_append, hpre]
    show (auditTrace ⟨some 0, some 0⟩ o.events).isSome = true
    rcases h with h | h <;> rw [h] <;> rfl
  | exited code =>
    cases hf : (finallyRun env o.final).1 with
    | some m =>
      show (auditTrace ⟨none, none⟩
        (preludeTrace ++ o.events ++ (finallyRun env o.final).2)).isSome = true
      rw [List.append_assoc, auditTrace_append, hpre]
      show (auditTrace ⟨some 0, some 0⟩
        (o.events ++ (finallyRun env o.final).2)).isSome = true
      rw [auditTrace_append]
      rcases h with h | h <;> rw [h]
      · exact hfin.1
      · exact hfin.2
    | none =>
      show (auditTrace ⟨none, none⟩
        (preludeTrace ++ o.events ++ (finallyRun env o.final).2)).isSome = true
      rw [List.append_assoc, auditTrace_append, hpre]
      show (auditTrace ⟨some 0, some 0⟩
        (o.events ++ (finallyRun env o.final).2)).isSome = true
      rw [auditTrace_append]
      rcases h with h | h <;> rw [h]
      · exact hfin.1
      · exact hfin.2
  | caught m =>
    cases hf : (finallyRun env o.final).1 with
    | some m2 =>
      show (auditTrace ⟨none, none⟩
        (preludeTrace ++ o.events ++ (finallyRun env o.final).2)).isSome = true
      rw [List.append_assoc, auditTrace_append, hpre]
      show (auditTrace ⟨some 0, some 0⟩
        (o.events ++ (finallyRun env o.final).2)).isSome = true
      rw [auditTrace_append]
      rcases h with h | h <;> rw [h]
      · exact hfin.1
      · exact hfin.2
    | none =>
      show (auditTrace ⟨none, none⟩
        (preludeTrace ++ o.events ++ (finallyRun env o.final).2)).isSome = true
      rw [List.append_assoc, auditTrace_append, hpre]
      show (auditTrace ⟨some 0, some 0⟩
        (o.events ++ (finallyRun env o.final).2)).isSome = true
      rw [auditTrace_append]
      rcases h with h | h <;> rw [h]
      · exact hfin.1
      · exact hfin.2

theorem handler_monitor_path (env : Env) (fuel : Nat)
    (hl : env.launchExn 0 = none) (hr : env.initReady = true)
    (hp : env.progressExn = none) :
    handler env fuel = handlerMonitor env (monitorLoop env fuel ⟨0, 1, 0, 0⟩) := by
  unfold handler
  rw [hl, hr, hp]

theorem handlerMonitor_fuelOut (env : Env) (o : LoopOut)
    (h : o.exit = LoopExit.fuelOut) :
    handlerMonitor env o = ⟨.outOfFuel, preludeTrace ++ o.events⟩ := by
  unfold handlerMonitor
  rw [h]

theorem handlerMonitor_exited (env : Env) (o : LoopOut) (c : Int)
    (h : o.exit = LoopExit.exited c)
    (hf : (finallyRun env o.final).1 = none) :
    handlerMonitor env o = ⟨.ok (.stopped c env.sessionId),
      preludeTrace ++ o.events ++ (finallyRun env o.final).2⟩ := by
  unfold handlerMonitor
  rw [h, hf]

theorem handlerMonitor_caught (env : Env) (o : LoopOut) (m : String)
    (h : o.exit = LoopExit.caught m)
    (hf : (finallyRun env o.final).1 = none) :
    handlerMonitor env o = ⟨.ok (.monitorError m env.sessionId),
      preludeTrace ++ o.events ++ (finallyRun env o.final).2⟩ := by
  unfold handlerMonitor
  rw [h, hf]

theorem finallyRun_already_exited (env : Env) (s : LoopState) (c : Int)
    (h : env.finalPoll = some c) :
    finallyRun env s = (none, [Event.pollCheck s.cur (some c)]) := by
  unfold finallyRun
  rw [h]

theorem countRestarts_finallyRun (env : Env) (s : LoopState) :
    countRestarts (finallyRun env s).2 = 0 := by
  unfold countRestarts
  rw [restartTimeoutsOf_finallyRun]
  rfl

theorem monitorLoop_exit_observed (env : Env) (c : Int) : ∀ n fuel s,
    (∀ k, k < n →
      env.pollAt (s.step + k) = none ∧ env.probeOk (s.step + k) = true) →
    env.pollAt (s.step + n) = some c → n < fuel →
    (monitorLoop env fuel s).exit = LoopExit.exited c ∧
    countRestarts (monitorLoop env fuel s).events = 0 := by
  intro n
  induction n with
  | zero =>
    intro fuel s hh hp hf
    cases fuel with
    | zero => omega
    | succ fuel =>
      rw [Nat.add_zero] at hp
      constructor
      · show (monitorLoop env (fuel + 1) s).exit = LoopExit.exited c
        simp [monitorLoop, hp]
      · show countRestarts (monitorLoop env (fuel + 1) s).events = 0
        simp [monitorLoop, hp, countRestarts, restartTimeoutsOf]
  | succ n ih =>
    intro fuel s hh hp hf
    cases fuel with
    | zero => omega
    | succ fuel =>
      have h0 := hh 0 (by omega)
      rw [Nat.add_zero] at h0
      have hh2 : ∀ k, k < n →
          env.pollAt (s.step + 1 + k) = none ∧
          env.probeOk (s.step + 1 + k) = true := by
        intro k hk
        have := hh (k + 1) (by omega)
        rwa [show s.step + (k + 1) = s.step + 1 + k by omega] at this
      have hp2 : env.pollAt (s.step + 1 + n) = some c := by
        rwa [show s.step + (n + 1) = s.step + 1 + n by omega] at hp
      have hrec := ih fuel ⟨s.cur, s.launches, s.termCount, s.step + 1⟩
        hh2 hp2 (by omega)
      simp only [monitorLoop, h0.1, h0.2]
      constructor
      · exact hrec.1
      · rw [countRestarts_append]
        rw [show countRestarts [Event.pollCheck s.cur none, Event.sleepTick,
          Event.waitReadyHealth 5 true] = 0 from rfl]
        rw [hrec.2]

/-- C4: `wait_for_server(host, port, T)` returns true iff some connect
attempt starting within `T` elapsed seconds succeeds — so it returns
false exactly when no in-window attempt succeeds, and the boolean result
never depends on whether a failing attempt was a refused connection or a
raised-and-swallowed socket error (errors never terminate the wait;
attempts are retried after the fixed 1-second sleep built into the
timing model). -/
theorem claim4_wait_for_server_correct (attempt : Nat → ProbeOutcome)
    (dur : Nat → Nat) (timeout : Nat) :
    (wait_for_server attempt dur timeout = true ↔
      ∃ k, attemptStart dur k < timeout ∧
        attempt k = ProbeOutcome.success) ∧
    (∀ attempt2 : Nat → ProbeOutcome,
      (∀ k, attempt2 k = ProbeOutcome.success ↔
        attempt k = ProbeOutcome.success) →
      wait_for_server attempt2 dur timeout =
        wait_for_server attempt dur timeout) := by
  constructor
  · exact wait_for_server_true_iff attempt dur timeout
  · intro a2 hiff
    by_cases hb : wait_for_server attempt dur timeout = true
    · rw [hb]
      refine (wait_for_server_true_iff a2 dur timeout).mpr ?_
      obtain ⟨k, hk, hs⟩ := (wait_for_server_true_iff attempt dur timeout).mp hb
      exact ⟨k, hk, (hiff k).mpr hs⟩
    · have hb2 : wait_for_server attempt dur timeout = false :=
        Bool.eq_false_iff.mpr hb
      rw [hb2]
      cases hval : wait_for_server a2 dur timeout with
      | false => rfl
      | true =>
        obtain ⟨k, hk, hs⟩ := (wait_for_server_true_iff a2 dur timeout).mp hval
        exact absurd ((wait_for_server_true_iff attempt dur timeout).mpr
          ⟨k, hk, (hiff k).mp hs⟩) hb

/-- Witness for C4: with a listener appearing at the third attempt of a
5-second window, the wait returns the same result whether earlier
attempts were refused or raised errors. -/
theorem claim4_witness :
    wait_for_server attemptsErrored durZero 5 =
      wait_for_server attemptsRefused durZero 5 :=
  (claim4_wait_for_server_correct attemptsRefused durZero 5).2 attemptsErrored
    (by
      intro k
      by_cases hk : k = 2 <;> simp [attemptsErrored, attemptsRefused, hk])

/-- C3: every trace `handler` can produce passes the handle audit: at
most one spawned-and-unterminated handle exists at every point (the
restart's termination signal to the old handle precedes the spawn of its
replacement), every poll and kill targets the most recently spawned
handle (the old handle is never polled again once a replacement exists),
and each termination signal targets the current handle. -/
theorem claim3_single_live_handle (env : Env) (fuel : Nat) :
    (auditTrace ⟨none, none⟩ (handler env fuel).trace).isSome = true := by
  unfold handler
  cases hl : env.launchExn 0 with
  | some m => rfl
  | none =>
    cases hr : env.initReady with
    | false =>
      cases ht : env.termExn 0 with
      | some m => simp [auditTrace, auditStep]
      | none => simp [auditTrace, auditStep]
    | true =>
      cases hp : env.progressExn with
      | some m => simp [auditTrace, auditStep]
      | none =>
        exact handlerMonitor_audit env (monitorLoop env fuel ⟨0, 1, 0, 0⟩)
          (monitorLoop_audit env fuel ⟨0, 1, 0, 0⟩)

/-- Counterexample to C1 as stated: with a child that stays alive but
fails every liveness probe, two monitoring iterations already execute
two full restart sequences — the restart is not limited to once per
session. -/
theorem claim1_counterexample :
    countRestarts (handler envLoop 2).trace = 2 := rfl

/-- C1 (amended): the code attempts a restart on every failed liveness
probe with no per-session budget: against a child that stays alive but
never passes its health check, each of the first `fuel` monitoring
iterations executes one full restart sequence, so the number of restarts
grows without bound instead of stopping after one. -/
theorem claim1_restart_not_bounded (fuel : Nat) :
    countRestarts (handler envLoop fuel).trace = fuel := by
  have h := monitorLoop_envLoop fuel ⟨0, 1, 0, 0⟩
  rw [handler_monitor_path envLoop fuel rfl rfl rfl,
    handlerMonitor_fuelOut envLoop _ h.1]
  show countRestarts (preludeTrace ++
    (monitorLoop envLoop fuel ⟨0, 1, 0, 0⟩).events) = fuel
  rw [countRestarts_append, h.2]
  exact Nat.zero_add fuel

/-- Counterexample to C2 as stated: the readiness wait performed for the
replacement process after a restart uses a 60-second timeout, not the
original 120-second startup window. -/
theorem claim2_counterexample :
    restartTimeoutsOf (handler envLoop 1).trace = [60] ∧
    (restartTimeoutsOf (handler envLoop 1).trace).all (fun t => t == 120)
      = false := by
  constructor <;> rfl

/-- Glue lemma: the claim-C2 timeout property over the full
monitor-plus-cleanup trace. -/
theorem timeouts_glue (env : Env) (o : LoopOut)
    (h1 : (restartTimeoutsOf o.events).all (fun t => t == 60) = true)
    (h2 : initTimeoutsOf o.events = []) :
    (restartTimeoutsOf (preludeTrace ++ o.events ++
      (finallyRun env o.final).2)).all (fun t => t == 60) = true ∧
    (initTimeoutsOf (preludeTrace ++ o.events ++
      (finallyRun env o.final).2)).all (fun t => t == 120) = true := by
  constructor
  · rw [restartTimeoutsOf_append, restartTimeoutsOf_append,
      restartTimeoutsOf_finallyRun,
      show restartTimeoutsOf preludeTrace = [] from rfl]
    simpa using h1
  · rw [initTimeoutsOf_append, initTimeoutsOf_append,
      initTimeoutsOf_finallyRun, h2,
      show initTimeoutsOf preludeTrace = [120] from rfl]
    rfl

theorem handlerMonitor_timeouts (env : Env) (o : LoopOut)
    (h1 : (restartTimeoutsOf o.events).all (fun t => t == 60) = true)
    (h2 : initTimeoutsOf o.events = []) :
    (restartTimeoutsOf (handlerMonitor env o).trace).all (fun t => t == 60)
      = true ∧
    (initTimeoutsOf (handlerMonitor env o).trace).all (fun t => t == 120)
      = true := by
  unfold handlerMonitor
  cases hx : o.exit with
  | fuelOut =>
    constructor
    · show (restartTimeoutsOf (preludeTrace ++ o.events)).all
        (fun t => t == 60) = true
      rw [restartTimeoutsOf_append,
        show restartTimeoutsOf preludeTrace = [] from rfl]
      simpa using h1
    · show (initTimeoutsOf (preludeTrace ++ o.events)).all
        (fun t => t == 120) = true
      rw [initTimeoutsOf_append, h2,
        show initTimeoutsOf preludeTrace = [120] from rfl]
      rfl
  | exited code =>
    cases hf : (finallyRun env o.final).1 with
    | some m => exact timeouts_glue env o h1 h2
    | none => exact timeouts_glue env o h1 h2
  | caught m =>
    cases hf : (finallyRun env o.final).1 with
    | some m2 => exact timeouts_glue env o h1 h2
    | none => exact timeouts_glue env o h1 h2

/-- C2 (amended): in every session, every post-restart readiness wait
uses a 60-second timeout — half the original 120-second startup window,
which is used only by the initial readiness wait — not the original
startup timeout. -/
theorem claim2_restart_timeout_sixty (env : Env) (fuel : Nat) :
    (restartTimeoutsOf (handler env fuel).trace).all (fun t => t == 60)
      = true ∧
    (initTimeoutsOf (handler env fuel).trace).all (fun t => t == 120)
      = true := by
  unfold handler
  cases hl : env.launchExn 0 with
  | some m => constructor <;> rfl
  | none =>
    cases hr : env.initReady with
    | false =>
      cases ht : env.termExn 0 with
      | some m => constructor <;> rfl
      | none => constructor <;> rfl
    | true =>
      cases hp : env.progressExn with
      | some m => constructor <;> rfl
      | none =>
        have hloop := monitorLoop_restart_timeouts env fuel ⟨0, 1, 0, 0⟩
        exact handlerMonitor_timeouts env (monitorLoop env fuel ⟨0, 1, 0, 0⟩)
          hloop.1 hloop.2

/-- Counterexample to C5 as stated: when the child hangs, the restart's
replacement launch raises, and in the cleanup block the forced `kill()`
call itself raises, the exception escapes `handler` uncaught — the
platform does not receive a structured object on this path. -/
theorem claim5_counterexample :
    (handler envKillRaise 1).status = HStatus.uncaught "kill failed" := rfl

/-- C5 (amended): whenever the `progress_update` call and every
`terminate()`/`kill()` call return normally, no exception escapes
`handler`: each completed invocation yields exactly one structured
result (the function's single return value).  Exceptions raised by
`progress_update` (line 147), by the terminate at line 123, or inside
the `finally` block are outside every `try` that `handler` catches, and
escape. -/
theorem claim5_structured_result (env : Env) (fuel : Nat) (m : String)
    (hp : env.progressExn = none) (ht : ∀ k, env.termExn k = none)
    (hk : env.killExn = none) :
    (handler env fuel).status ≠ HStatus.uncaught m := by
  unfold handler
  cases hl : env.launchExn 0 with
  | some m2 => simp
  | none =>
    cases hr : env.initReady with
    | false =>
      rw [ht 0]
      simp
    | true =>
      rw [hp]
      unfold handlerMonitor
      cases hx : (monitorLoop env fuel ⟨0, 1, 0, 0⟩).exit with
      | fuelOut => simp
      | exited code =>
        rw [finallyRun_no_raise env _ (ht _) hk]
        simp
      | caught m2 =>
        rw [finallyRun_no_raise env _ (ht _) hk]
        simp

/-- Witness for C5 (amended) at a concrete benign environment. -/
theorem claim5_witness :
    (handler envNoReady 0).status ≠ HStatus.uncaught "boom" :=
  claim5_structured_result envNoReady 0 "boom" rfl (fun _ => rfl) rfl

/-- Counterexample to C6 as stated: when the `finally` block's
`terminate()` call fails, the failure is not logged-and-swallowed — it
escapes `handler` and replaces the primary result (here the
`monitorError` result of the caught in-loop failure). -/
theorem claim6_counterexample :
    (handler envTermRaise 1).status = HStatus.uncaught "terminate failed" :=
  rfl

/-- C6 (amended): the cleanup block catches only the expiry of the
bounded 10-second wait (escalating to a forced kill).  When the
termination signal and the kill call return normally the cleanup never
raises; but a failing terminate call propagates its exception out of the
cleanup path. -/
theorem claim6_cleanup_catches_only_wait_timeout (env : Env) (s : LoopState) :
    (env.termExn s.termCount = none → env.killExn = none →
      (finallyRun env s).1 = none) ∧
    (∀ m, env.finalPoll = none → env.termExn s.termCount = some m →
      (finallyRun env s).1 = some m) := by
  constructor
  · exact fun ht hk => finallyRun_no_raise env s ht hk
  · intro m hfp ht
    unfold finallyRun
    rw [hfp, ht]

/-- Witness for C6 (amended): both conjuncts at concrete cleanup
scenarios. -/
theorem claim6_witness :
    (finallyRun envBase ⟨0, 1, 0, 0⟩).1 = none ∧
    (finallyRun envTermRaise ⟨0, 1, 0, 0⟩).1 = some "terminate failed" :=
  ⟨(claim6_cleanup_catches_only_wait_timeout envBase ⟨0, 1, 0, 0⟩).1 rfl rfl,
    (claim6_cleanup_catches_only_wait_timeout envTermRaise ⟨0, 1, 0, 0⟩).2
      "terminate failed" rfl rfl⟩

/-- C7: when the cleanup poll observes that the child has already
exited, the cleanup path sends no termination or kill signal and raises
nothing; hence running it twice on the same already-exited handle emits
no signal at all — shutdown is an error-free no-op on an exited
process. -/
theorem claim7_shutdown_idempotent (env : Env) (s : LoopState) (c : Int)
    (h : env.finalPoll = some c) :
    (finallyRun env s).1 = none ∧
    cleanupSignals ((finallyRun env s).2 ++ (finallyRun env s).2) = [] := by
  rw [finallyRun_already_exited env s c h]
  constructor <;> rfl

/-- Witness for C7 at a concrete already-exited process. -/
theorem claim7_witness :
    (finallyRun envPollExit ⟨0, 1, 0, 0⟩).1 = none ∧
    cleanupSignals ((finallyRun envPollExit ⟨0, 1, 0, 0⟩).2 ++
      (finallyRun envPollExit ⟨0, 1, 0, 0⟩).2) = [] :=
  claim7_shutdown_idempotent envPollExit ⟨0, 1, 0, 0⟩ 1 rfl

/-- Counterexample to C8 as stated: a child that exits on its own during
the first 5-second sleep (so the loop condition's poll saw it running,
but the health probe finds its port closed) triggers a restart sequence,
and the session continues monitoring the replacement instead of
terminating with the `stopped` result. -/
theorem claim8_counterexample :
    countRestarts (handler envSleepExit 2).trace = 1 ∧
    (handler envSleepExit 2).status = HStatus.outOfFuel := by
  constructor <;> rfl

/-- C8 (amended): a self-exit that is observed by the loop condition's
non-blocking poll ends monitoring with no restart, and `handler` returns
the `stopped` result carrying the observed exit code; but a self-exit
that falls between a poll and the next health probe is instead handled
as unhealthy and triggers a restart. -/
theorem claim8_poll_observed_exit (env : Env) (fuel n : Nat) (c : Int)
    (hl : env.launchExn 0 = none) (hr : env.initReady = true)
    (hp : env.progressExn = none)
    (hh : ∀ k, k < n → env.pollAt k = none ∧ env.probeOk k = true)
    (hx : env.pollAt n = some c) (hf : n < fuel)
    (hfp : env.finalPoll = some c) :
    (handler env fuel).status = HStatus.ok (HResult.stopped c env.sessionId) ∧
    countRestarts (handler env fuel).trace = 0 := by
  have hh2 : ∀ k, k < n →
      env.pollAt ((⟨0, 1, 0, 0⟩ : LoopState).step + k) = none ∧
      env.probeOk ((⟨0, 1, 0, 0⟩ : LoopState).step + k) = true := by
    intro k hk
    rw [show (⟨0, 1, 0, 0⟩ : LoopState).step + k = k by simp]
    exact hh k hk
  have hx2 : env.pollAt ((⟨0, 1, 0, 0⟩ : LoopState).step + n) = some c := by
    rw [show (⟨0, 1, 0, 0⟩ : LoopState).step + n = n by simp]
    exact hx
  have hloop := monitorLoop_exit_observed env c n fuel ⟨0, 1, 0, 0⟩ hh2 hx2 hf
  rw [handler_monitor_path env fuel hl hr hp,
    handlerMonitor_exited env _ c hloop.1
      (by rw [finallyRun_already_exited env _ c hfp])]
  constructor
  · rfl
  · show countRestarts (preludeTrace ++
      (monitorLoop env fuel ⟨0, 1, 0, 0⟩).events ++
      (finallyRun env (monitorLoop env fuel ⟨0, 1, 0, 0⟩).final).2) = 0
    rw [countRestarts_append, countRestarts_append, hloop.2,
      countRestarts_finallyRun]
    rfl

/-- Witness for C8 (amended): the exit is observed by the very first
poll. -/
theorem claim8_witness :
    (handler envPollExit 1).status =
      HStatus.ok (HResult.stopped 1 "sess") ∧
    countRestarts (handler envPollExit 1).trace = 0 :=
  claim8_poll_observed_exit envPollExit 1 0 1 rfl rfl rfl
    (fun k hk => absurd hk (by omega)) rfl (by omega) rfl

/-- C9: when the initial 120-second readiness wait fails, `handler`
terminates the child and returns the launch-failure object whose message
describes the timeout; the trace shows the spawn, the failed 120-second
wait, and the termination signal — no monitoring poll, no health probe,
and no connection-info progress report occur. -/
theorem claim9_readiness_timeout (env : Env) (fuel : Nat)
    (hl : env.launchExn 0 = none) (hr : env.initReady = false)
    (ht : env.termExn 0 = none) :
    (handler env fuel).status = HStatus.ok (HResult.initTimeoutFailure
      "PersonaPlex server failed to start within timeout") ∧
    (handler env fuel).trace = [Event.spawn 0, Event.waitReadyInit 120 false,
      Event.terminateSig 0] := by
  unfold handler
  rw [hl, hr, ht]
  constructor <;> rfl

/-- Witness for C9 at a concrete never-ready environment. -/
theorem claim9_witness :
    (handler envNoReady 1).status = HStatus.ok (HResult.initTimeoutFailure
      "PersonaPlex server failed to start within timeout") ∧
    (handler envNoReady 1).trace = [Event.spawn 0, Event.waitReadyInit 120 false,
      Event.terminateSig 0] :=
  claim9_readiness_timeout envNoReady 1 rfl rfl rfl

/-- C10: when the health probe fails at the first monitoring iteration
and the replacement launch raises `m`, the exception is caught by the
monitoring loop's `except` clause: the session ends with the
`monitorError` result carrying `m` and the session id, the cleanup path
runs afterwards (the trailing cleanup poll in the trace), and this
result shape differs from the `initLaunchFailure` object returned when
the initial launch fails before monitoring begins. -/
theorem claim10_restart_launch_failure (env : Env) (fuel : Nat) (m : String)
    (c : Int) (hl0 : env.launchExn 0 = none) (hr : env.initReady = true)
    (hp : env.progressExn = none) (hpoll : env.pollAt 0 = none)
    (hprobe : env.probeOk 0 = false) (ht : env.termExn 0 = none)
    (hl1 : env.launchExn 1 = some m) (hfp : env.finalPoll = some c) :
    (handler env (fuel + 1)).status =
      HStatus.ok (HResult.monitorError m env.sessionId) ∧
    (handler env (fuel + 1)).trace =
      [Event.spawn 0, Event.waitReadyInit 120 true, Event.progressSent,
        Event.pollCheck 0 none, Event.sleepTick, Event.waitReadyHealth 5 false,
        Event.terminateSig 0, Event.pollCheck 0 (some c)] ∧
    (∀ m2, HResult.monitorError m env.sessionId ≠
      HResult.initLaunchFailure m2) := by
  have hloopOut : monitorLoop env (fuel + 1) ⟨0, 1, 0, 0⟩ =
      ⟨.caught m, ⟨0, 2, 1, 0⟩, [Event.pollCheck 0 none, Event.sleepTick,
        Event.waitReadyHealth 5 false, Event.terminateSig 0]⟩ := by
    simp [monitorLoop, hpoll, hprobe, ht, hl1]
  rw [handler_monitor_path env (fuel + 1) hl0 hr hp, hloopOut,
    handlerMonitor_caught env _ m rfl
      (by rw [finallyRun_already_exited env _ c hfp]),
    finallyRun_already_exited env _ c hfp]
  refine ⟨rfl, rfl, ?_⟩
  intro m2
  simp

/-- Witness for C10 at a concrete environment whose replacement launch
raises "boom". -/
theorem claim10_witness :
    (handler envRestartBoom 1).status =
      HStatus.ok (HResult.monitorError "boom" "sess") ∧
    (handler envRestartBoom 1).trace =
      [Event.spawn 0, Event.waitReadyInit 120 true, Event.progressSent,
        Event.pollCheck 0 none, Event.sleepTick, Event.waitReadyHealth 5 false,
        Event.terminateSig 0, Event.pollCheck 0 (some (-15))] ∧
    (∀ m2, HResult.monitorError "boom" "sess" ≠
      HResult.initLaunchFailure m2) :=
  claim10_restart_launch_failure envRestartBoom 0 "boom" (-15)
    rfl rfl rfl rfl rfl rfl rfl rfl

end PersonaPlex
